import Mathlib

/-!
Verification of the cloudmetrics controller of the cloud-resource-operator
repository (pkg/controller/cloudmetrics/cloudmetrics_controller.go).

The controller periodically lists all redis and postgres custom resources,
scrapes provider-specific metrics for each through registered metrics
providers, and republishes the scraped samples on labeled prometheus gauges.
The embedding below translates the data model and the Reconcile /
setGaugeMetrics logic of the source into executable Lean definitions:

  * prometheus gauge state is an association list keyed by
    (gauge identity, label-value 6-tuple), with overwrite-on-set semantics;
  * the resource-listing client calls are inputs of type
    `Except String (List ResourceInstance)`;
  * a metrics provider is a pair of functions `supportsStrategy` / `scrape`
    mirroring the provider capability interface;
  * `Reconcile` threads the gauge state explicitly and returns the
    (result, error) pair of the Go function.
-/

/-- Label key constant `labelClusterIDKey` from the source. -/
def labelClusterIDKey : String := "clusterID"

/-- Label key constant `labelResourceIDKey` from the source. -/
def labelResourceIDKey : String := "resourceID"

/-- Label key constant `labelNamespaceKey` from the source. -/
def labelNamespaceKey : String := "namespace"

/-- Label key constant `labelInstanceIDKey` from the source. -/
def labelInstanceIDKey : String := "instanceID"

/-- Label key constant `labelProductNameKey` from the source. -/
def labelProductNameKey : String := "productName"

/-- Label key constant `labelStrategyKey` from the source. -/
def labelStrategyKey : String := "strategy"

/-- Generic list of label keys used for the gauge vectors (`labels` in the
source), in the order they are passed to `WithLabelValues`. -/
def labels : List String :=
  [labelClusterIDKey, labelResourceIDKey, labelNamespaceKey,
   labelInstanceIDKey, labelProductNameKey, labelStrategyKey]

/-- providers.CloudProviderMetricType. The defining package
(pkg/providers) is outside the covered sources; the three fields are the
ones the controller constructs (PromethuesMetricName, ProviderMetricName,
Statistic), matching the spec's ProviderQueryDescriptor
{catalogMetricName, providerMetricName, aggregationStatistic}. -/
structure CloudProviderMetricType where
  promethuesMetricName : String
  providerMetricName : String
  statistic : String
deriving Repr, DecidableEq

/-- CroGaugeMetric: a mapping between an exposed prometheus metric and
multiple cloud-provider specific metrics. `gaugeVec` stands for the
identity of the `*prometheus.GaugeVec` allocated for the entry (each
catalog entry allocates a distinct vector); `providerType` is the
ProviderType map, as an association list from deployment-strategy
identifier to metric type (keys are unique in a Go map). -/
structure CroGaugeMetric where
  name : String
  gaugeVec : Nat
  providerType : List (String × CloudProviderMetricType)
deriving Repr, DecidableEq

/-- providers.GenericCloudMetric as consumed by setGaugeMetrics: a metric
name, a label map, and a float64 value (modelled as a rational; the
controller only stores values, never computes with them). -/
structure GenericCloudMetric where
  name : String
  labels : List (String × String)
  value : ℚ
deriving Repr, DecidableEq

/-- A redis or postgres custom resource as read by the controller: the
only fields the controller consults are the name (for logging) and
Status.Strategy. -/
structure ResourceInstance where
  name : String
  strategy : String
deriving Repr, DecidableEq

/-- The provider capability interface (providers.RedisMetricsProvider /
providers.PostgresMetricsProvider): SupportsStrategy plus a scrape call
that yields the Metrics list of a ScrapeMetricsOutput or an error. -/
structure MetricsProvider where
  supportsStrategy : String → Bool
  scrape : ResourceInstance → List CloudProviderMetricType →
    Except String (List GenericCloudMetric)

/-- Identity of one gauge time series: the gauge vector it lives in and
the label-value 6-tuple passed to WithLabelValues. -/
abbrev SeriesKey := Nat × List String

/-- Process-wide gauge state: an association list from series key to the
current gauge value, mirroring the prometheus registry contents. -/
abbrev GaugeState := List (SeriesKey × ℚ)

/-- Set one labeled gauge series to a value, overwriting any prior value
stored for exactly that key (prometheus `WithLabelValues(...).Set(v)`). -/
def setSeries : GaugeState → SeriesKey → ℚ → GaugeState
  | [], k, v => [(k, v)]
  | e :: rest, k, v => if e.1 = k then (k, v) :: rest else e :: setSeries rest k v

/-- Read back one labeled gauge series, `none` when the series was never
set. -/
def lookupSeries : GaugeState → SeriesKey → Option ℚ
  | [], _ => none
  | e :: rest, k => if e.1 = k then some e.2 else lookupSeries rest k

/-- Indexing a Go string map: the stored value, or the zero value "" when
the key is absent (`scrapedMetric.Labels[key]`). -/
def lookupLabel (m : List (String × String)) (k : String) : String :=
  match m.find? (fun p => p.1 == k) with
  | some p => p.2
  | none => ""

/-- The six label values extracted from a scraped metric's label map, in
the order setGaugeMetrics passes them to WithLabelValues. -/
def labelValues (m : List (String × String)) : List String :=
  labels.map (lookupLabel m)

/-- Inner loop of setGaugeMetrics for one scraped metric: walk the catalog
and, for every entry whose Name equals the scraped metric's Name, set that
entry's gauge series for the metric's labels to the metric's value. (The
`continue` in the source continues this inner loop, so a later entry with
the same name is still processed.) -/
def setGaugeMetricsOne (gaugeMetrics : List CroGaugeMetric)
    (m : GenericCloudMetric) (st : GaugeState) : GaugeState :=
  gaugeMetrics.foldl (fun st croMetric =>
    if m.name = croMetric.name then
      setSeries st (croMetric.gaugeVec, labelValues m.labels) m.value
    else st) st

/-- setGaugeMetrics from the source: for each scraped metric value, check
the catalog for name matches and set the value with the labels. -/
def setGaugeMetrics (gaugeMetrics : List CroGaugeMetric)
    (scrapedMetrics : List GenericCloudMetric) (st : GaugeState) : GaugeState :=
  scrapedMetrics.foldl (fun st m => setGaugeMetricsOne gaugeMetrics m st) st

/-- The metric-type filtering loop of Reconcile: for each catalog entry,
for each (provider, metricType) pair of its ProviderType map, append the
metric type when the provider key equals the instance's strategy. -/
def metricTypesFor (gaugeMetrics : List CroGaugeMetric) (strategy : String) :
    List CloudProviderMetricType :=
  gaugeMetrics.foldl (fun acc gaugeMetric =>
    gaugeMetric.providerType.foldl (fun acc pr =>
      if pr.1 = strategy then acc ++ [pr.2] else acc) acc) []

/-- The per-instance provider loop of Reconcile: for each provider, skip
it unless it supports the instance's strategy, otherwise scrape; on error
the pair contributes nothing (logged and `continue` in the source), on
success the returned metrics are appended to the accumulated list. -/
def scrapeInstance (gaugeMetrics : List CroGaugeMetric)
    (providerList : List MetricsProvider) (inst : ResourceInstance)
    (scrapedMetrics : List GenericCloudMetric) : List GenericCloudMetric :=
  providerList.foldl (fun scrapedMetrics p =>
    if p.supportsStrategy inst.strategy then
      match p.scrape inst (metricTypesFor gaugeMetrics inst.strategy) with
      | .ok out => scrapedMetrics ++ out
      | .error _ => scrapedMetrics
    else scrapedMetrics) scrapedMetrics

/-- The per-kind instance loop of Reconcile: scrape every listed instance
with every registered provider, threading the flat accumulated sample
list. -/
def scrapeKind (gaugeMetrics : List CroGaugeMetric)
    (providerList : List MetricsProvider) (insts : List ResourceInstance)
    (scrapedMetrics : List GenericCloudMetric) : List GenericCloudMetric :=
  insts.foldl (fun scrapedMetrics inst =>
    scrapeInstance gaugeMetrics providerList inst scrapedMetrics) scrapedMetrics

/-- Number of provider scrape calls the per-kind loop performs: one per
(instance, provider) pair that passes the SupportsStrategy guard. -/
def scrapeCallCount (providerList : List MetricsProvider)
    (insts : List ResourceInstance) : Nat :=
  insts.foldl (fun n inst =>
    providerList.foldl (fun n p =>
      if p.supportsStrategy inst.strategy then n + 1 else n) n) 0

/-- Result of a reconcile pass (reconcile.Result): requeueAfter in
seconds, 0 standing for the zero Result{} with no requeue directive. -/
structure ReconcileResult where
  requeueAfter : Nat
deriving Repr, DecidableEq

/-- Modelled from the spec: the metric-name constants of pkg/resources
(PostgresFreeStorageAverage and friends) are outside the covered sources.
The spec states catalog names are catalog-unique and its end-to-end
scenario exposes the postgres free-storage metric as free_storage_avg;
the six constants are modelled as six distinct strings. -/
def PostgresFreeStorageAverage : String := "free_storage_avg"

/-- Modelled from the spec: see `PostgresFreeStorageAverage`. -/
def PostgresCPUUtilizationAverage : String := "postgres_cpu_utilization_avg"

/-- Modelled from the spec: see `PostgresFreeStorageAverage`. -/
def PostgresFreeableMemoryAverage : String := "postgres_freeable_memory_avg"

/-- Modelled from the spec: see `PostgresFreeStorageAverage`. -/
def RedisMemoryUsagePercentageAverage : String := "redis_memory_usage_percentage_avg"

/-- Modelled from the spec: see `PostgresFreeStorageAverage`. -/
def RedisFreeableMemoryAverage : String := "redis_freeable_memory_avg"

/-- Modelled from the spec: see `PostgresFreeStorageAverage`. -/
def RedisCPUUtilizationAverage : String := "redis_cpu_utilization_avg"

/-- Modelled from the spec: providers.AWSDeploymentStrategy is outside the
covered sources; the spec's scenarios use the strategy identifier "aws". -/
def AWSDeploymentStrategy : String := "aws"

/-- cloudwatch.StatisticAverage from the AWS SDK. -/
def StatisticAverage : String := "Average"

/-- postgresGaugeMetrics: the postgres metric catalog of the source, with
gauge-vector identities 0..2 standing for the three distinct GaugeVec
allocations. -/
def postgresGaugeMetrics : List CroGaugeMetric :=
  [{ name := PostgresFreeStorageAverage, gaugeVec := 0,
     providerType := [(AWSDeploymentStrategy,
       { promethuesMetricName := PostgresFreeStorageAverage,
         providerMetricName := "FreeStorageSpace",
         statistic := StatisticAverage })] },
   { name := PostgresCPUUtilizationAverage, gaugeVec := 1,
     providerType := [(AWSDeploymentStrategy,
       { promethuesMetricName := PostgresCPUUtilizationAverage,
         providerMetricName := "CPUUtilization",
         statistic := StatisticAverage })] },
   { name := PostgresFreeableMemoryAverage, gaugeVec := 2,
     providerType := [(AWSDeploymentStrategy,
       { promethuesMetricName := PostgresFreeableMemoryAverage,
         providerMetricName := "FreeableMemory",
         statistic := StatisticAverage })] }]

/-- redisGaugeMetrics: the redis metric catalog of the source, with
gauge-vector identities 3..5. -/
def redisGaugeMetrics : List CroGaugeMetric :=
  [{ name := RedisMemoryUsagePercentageAverage, gaugeVec := 3,
     providerType := [(AWSDeploymentStrategy,
       { promethuesMetricName := RedisMemoryUsagePercentageAverage,
         providerMetricName := "DatabaseMemoryUsagePercentage",
         statistic := StatisticAverage })] },
   { name := RedisFreeableMemoryAverage, gaugeVec := 4,
     providerType := [(AWSDeploymentStrategy,
       { promethuesMetricName := RedisFreeableMemoryAverage,
         providerMetricName := "FreeableMemory",
         statistic := StatisticAverage })] },
   { name := RedisCPUUtilizationAverage, gaugeVec := 5,
     providerType := [(AWSDeploymentStrategy,
       { promethuesMetricName := RedisCPUUtilizationAverage,
         providerMetricName := "CPUUtilization",
         statistic := StatisticAverage })] }]

/-- Reconcile of ReconcileCloudMetrics. The listing calls are inputs
(`Except` of the items or the client error); `interval` is the value of
resources.GetMetricReconcileTimeOrDefault(resources.MetricsWatchDuration),
the configured requeue interval (that helper lives outside the covered
sources; the spec documents it as a single overridable interval,
default 600s). The function mirrors the source statement by statement:

  * a redis listing error returns (Result{}, err) at once;
  * the redis instances are scraped into the flat scrapedMetrics list and
    published against redisGaugeMetrics;
  * a postgres listing error is only logged, leaving the item list at its
    zero value (empty);
  * the postgres instances are scraped, appending to the same flat list,
    and the whole list is published against postgresGaugeMetrics;
  * the pass ends with the single requeue directive and a nil error. -/
def Reconcile (interval : Nat)
    (redisList postgresList : Except String (List ResourceInstance))
    (redisProviderList postgresProviderList : List MetricsProvider)
    (st : GaugeState) : (ReconcileResult × Option String) × GaugeState :=
  match redisList with
  | .error err => (({ requeueAfter := 0 }, some err), st)
  | .ok redisItems =>
    let scrapedMetrics := scrapeKind redisGaugeMetrics redisProviderList redisItems []
    let st := setGaugeMetrics redisGaugeMetrics scrapedMetrics st
    let postgresItems := match postgresList with
      | .ok items => items
      | .error _ => []
    let scrapedMetrics :=
      scrapeKind postgresGaugeMetrics postgresProviderList postgresItems scrapedMetrics
    let st := setGaugeMetrics postgresGaugeMetrics scrapedMetrics st
    (({ requeueAfter := interval }, none), st)

/-! ### Auxiliary definitions used by the proofs and by concrete runs -/

/-- Folding a sequence of series writes of one fixed value over a state. -/
def foldSet (st : GaugeState) (ks : List SeriesKey) (v : ℚ) : GaugeState :=
  ks.foldl (fun st k => setSeries st k v) st

/-- The series keys a single scraped metric writes to: one per catalog
entry whose name matches the metric's name. -/
def matchKeys (gaugeMetrics : List CroGaugeMetric) (m : GenericCloudMetric) :
    List SeriesKey :=
  gaugeMetrics.filterMap (fun croMetric =>
    if m.name = croMetric.name then
      some (croMetric.gaugeVec, labelValues m.labels)
    else none)

/-- A catalog with two entries sharing one name but with distinct gauge
vectors, exercising the name-match loop of setGaugeMetrics on duplicate
names. -/
def duplicateNameCatalog : List CroGaugeMetric :=
  [{ name := "dup_metric", gaugeVec := 10, providerType := [] },
   { name := "dup_metric", gaugeVec := 11, providerType := [] }]

/-- A scraped sample named after both entries of `duplicateNameCatalog`. -/
def dupSample : GenericCloudMetric :=
  { name := "dup_metric", labels := [], value := 5 }

/-- A scraped sample whose name is listed in no catalog. -/
def strayMetricSample : GenericCloudMetric :=
  { name := "unlisted_metric", labels := [], value := 7 }

/-- A redis instance used by the concrete runs. -/
def redisInstanceA : ResourceInstance := { name := "redis-a", strategy := "aws" }

/-- A second redis instance used by the concrete runs. -/
def redisInstanceB : ResourceInstance := { name := "redis-b", strategy := "aws" }

/-- A postgres instance with the labels of the end-to-end scenario. -/
def postgresInstanceA : ResourceInstance := { name := "pg-a", strategy := "aws" }

/-- A postgres instance declaring a strategy no provider supports. -/
def gcpInstance : ResourceInstance := { name := "pg-gcp", strategy := "gcp" }

/-- The sample of the end-to-end scenario: free_storage_avg at 4096 with
the scenario's label 6-tuple. -/
def freeStorageSample : GenericCloudMetric :=
  { name := PostgresFreeStorageAverage,
    labels := [("clusterID", "c1"), ("resourceID", "r1"), ("namespace", "ns1"),
               ("instanceID", "i1"), ("productName", "p1"), ("strategy", "aws")],
    value := 4096 }

/-- A redis-catalog sample used for the flat-accumulation run. -/
def redisMemorySample : GenericCloudMetric :=
  { name := RedisFreeableMemoryAverage,
    labels := [("clusterID", "c1"), ("resourceID", "rr1"), ("namespace", "ns1"),
               ("instanceID", "ri1"), ("productName", "redis"), ("strategy", "aws")],
    value := 2048 }

/-- Provider of the end-to-end scenario: supports "aws" and returns the
single free-storage sample. -/
def scenarioPostgresProvider : MetricsProvider :=
  { supportsStrategy := fun s => s == "aws",
    scrape := fun _ _ => .ok [freeStorageSample] }

/-- Redis provider returning one redis-catalog sample for every instance. -/
def scenarioRedisProvider : MetricsProvider :=
  { supportsStrategy := fun s => s == "aws",
    scrape := fun _ _ => .ok [redisMemorySample] }

/-- Provider that fails for `redisInstanceA` and succeeds with one sample
for every other instance: exercises per-instance scrape-failure
isolation. -/
def failingOnAProvider : MetricsProvider :=
  { supportsStrategy := fun _ => true,
    scrape := fun inst _ =>
      if inst.name = "redis-a" then .error "cloudwatch unavailable"
      else .ok [redisMemorySample] }

/-! ### Helper lemmas on gauge state -/

lemma lookupSeries_setSeries_self (st : GaugeState) (k : SeriesKey) (v : ℚ) :
    lookupSeries (setSeries st k v) k = some v := by
  induction st with
  | nil => simp [setSeries, lookupSeries]
  | cons e rest ih =>
    by_cases h : e.1 = k
    · simp [setSeries, lookupSeries, h]
    · simp [setSeries, lookupSeries, h, ih]

lemma lookupSeries_setSeries_ne (st : GaugeState) (k k' : SeriesKey) (v : ℚ)
    (h : k ≠ k') : lookupSeries (setSeries st k' v) k = lookupSeries st k := by
  have hk'k : ¬ (k' = k) := fun h2 => h h2.symm
  induction st with
  | nil =>
    simp only [setSeries, lookupSeries]
    exact if_neg hk'k
  | cons e rest ih =>
    by_cases he : e.1 = k'
    · have hek : e.1 ≠ k := fun h2 => h (h2.symm.trans he)
      simp [setSeries, lookupSeries, he, hek, hk'k]
    · simp only [setSeries, he, if_false, lookupSeries]
      by_cases hk : e.1 = k <;> simp [hk, ih]

lemma setSeries_noop (st : GaugeState) (k : SeriesKey) (v : ℚ)
    (h : lookupSeries st k = some v) : setSeries st k v = st := by
  induction st with
  | nil => simp [lookupSeries] at h
  | cons e rest ih =>
    rcases e with ⟨ek, ev⟩
    by_cases he : ek = k
    · simp only [lookupSeries, he, if_true, Option.some.injEq] at h
      simp [setSeries, he, h]
    · simp only [lookupSeries, he, if_false] at h
      simp [setSeries, he, ih h]

lemma setGaugeMetricsOne_eq_foldSet (gaugeMetrics : List CroGaugeMetric)
    (m : GenericCloudMetric) (st : GaugeState) :
    setGaugeMetricsOne gaugeMetrics m st = foldSet st (matchKeys gaugeMetrics m) m.value := by
  induction gaugeMetrics generalizing st with
  | nil => simp [setGaugeMetricsOne, matchKeys, foldSet]
  | cons cro rest ih =>
    by_cases h : m.name = cro.name
    · simp [setGaugeMetricsOne, matchKeys, foldSet, h] at ih ⊢
      exact ih _
    · simp [setGaugeMetricsOne, matchKeys, foldSet, h] at ih ⊢
      exact ih st

lemma lookupSeries_foldSet_preserve (ks : List SeriesKey) (st : GaugeState)
    (k : SeriesKey) (v : ℚ) (h : lookupSeries st k = some v) :
    lookupSeries (foldSet st ks v) k = some v := by
  induction ks generalizing st with
  | nil => simpa [foldSet] using h
  | cons k' rest ih =>
    simp only [foldSet, List.foldl_cons]
    by_cases hk : k = k'
    · exact ih _ (by rw [hk]; exact lookupSeries_setSeries_self st k' v)
    · exact ih _ (by rw [lookupSeries_setSeries_ne st k k' v hk]; exact h)

lemma lookupSeries_foldSet_mem (ks : List SeriesKey) (st : GaugeState)
    (k : SeriesKey) (v : ℚ) (h : k ∈ ks) :
    lookupSeries (foldSet st ks v) k = some v := by
  induction ks generalizing st with
  | nil => simp at h
  | cons k' rest ih =>
    simp only [foldSet, List.foldl_cons]
    rcases List.mem_cons.mp h with h1 | h2
    · by_cases hr : k ∈ rest
      · exact ih _ hr
      · exact lookupSeries_foldSet_preserve rest _ k v
          (by rw [h1]; exact lookupSeries_setSeries_self st k' v)
    · exact ih _ h2

lemma foldSet_cons (st : GaugeState) (k : SeriesKey) (ks : List SeriesKey) (v : ℚ) :
    foldSet st (k :: ks) v = foldSet (setSeries st k v) ks v := rfl

lemma lookupSeries_foldSet_not_mem (ks : List SeriesKey) (st : GaugeState)
    (k : SeriesKey) (v : ℚ) (h : k ∉ ks) :
    lookupSeries (foldSet st ks v) k = lookupSeries st k := by
  induction ks generalizing st with
  | nil => simp [foldSet]
  | cons k' rest ih =>
    rw [foldSet_cons]
    have hk : k ≠ k' := fun h2 => h (h2 ▸ List.mem_cons_self k' rest)
    have hr : k ∉ rest := fun h2 => h (List.mem_cons_of_mem k' h2)
    rw [ih _ hr, lookupSeries_setSeries_ne st k k' v hk]

lemma foldSet_noop (ks : List SeriesKey) (st : GaugeState) (v : ℚ)
    (h : ∀ k ∈ ks, lookupSeries st k = some v) : foldSet st ks v = st := by
  induction ks generalizing st with
  | nil => simp [foldSet]
  | cons k' rest ih =>
    simp only [foldSet, List.foldl_cons]
    rw [setSeries_noop st k' v (h k' (List.mem_cons_self k' rest))]
    exact ih st (fun k hk => h k (List.mem_cons_of_mem k' hk))

lemma setGaugeMetricsOne_unmatched (gaugeMetrics : List CroGaugeMetric)
    (m : GenericCloudMetric) (st : GaugeState)
    (h : ∀ cro ∈ gaugeMetrics, m.name ≠ cro.name) :
    setGaugeMetricsOne gaugeMetrics m st = st := by
  induction gaugeMetrics generalizing st with
  | nil => simp [setGaugeMetricsOne]
  | cons cro rest ih =>
    have h1 : m.name ≠ cro.name := h cro (List.mem_cons_self cro rest)
    simp only [setGaugeMetricsOne, List.foldl_cons, h1, if_false]
    exact ih st (fun c hc => h c (List.mem_cons_of_mem cro hc))

lemma setGaugeMetrics_unmatched (gaugeMetrics : List CroGaugeMetric)
    (ms : List GenericCloudMetric) (st : GaugeState)
    (h : ∀ m ∈ ms, ∀ cro ∈ gaugeMetrics, m.name ≠ cro.name) :
    setGaugeMetrics gaugeMetrics ms st = st := by
  induction ms generalizing st with
  | nil => simp [setGaugeMetrics]
  | cons m rest ih =>
    simp only [setGaugeMetrics, List.foldl_cons] at ih ⊢
    rw [setGaugeMetricsOne_unmatched gaugeMetrics m st
      (h m (List.mem_cons_self m rest))]
    exact ih st (fun m2 hm2 => h m2 (List.mem_cons_of_mem m hm2))

/-! ### Helper lemmas on the scrape loops and Reconcile -/

lemma scrapeInstance_cons (gm : List CroGaugeMetric) (p : MetricsProvider)
    (rest : List MetricsProvider) (inst : ResourceInstance)
    (acc : List GenericCloudMetric) :
    scrapeInstance gm (p :: rest) inst acc =
      scrapeInstance gm rest inst
        (if p.supportsStrategy inst.strategy then
           match p.scrape inst (metricTypesFor gm inst.strategy) with
           | .ok out => acc ++ out
           | .error _ => acc
         else acc) := rfl

lemma scrapeKind_cons (gm : List CroGaugeMetric) (provs : List MetricsProvider)
    (inst : ResourceInstance) (rest : List ResourceInstance)
    (acc : List GenericCloudMetric) :
    scrapeKind gm provs (inst :: rest) acc =
      scrapeKind gm provs rest (scrapeInstance gm provs inst acc) := rfl

lemma scrapeInstance_unsupported (gm : List CroGaugeMetric) (inst : ResourceInstance) :
    ∀ (provs : List MetricsProvider),
    (∀ p ∈ provs, p.supportsStrategy inst.strategy = false) →
    ∀ acc, scrapeInstance gm provs inst acc = acc
  | [], _, _ => rfl
  | p :: rest, h, acc => by
    have hp := h p (List.mem_cons_self p rest)
    rw [scrapeInstance_cons, if_neg (by simp [hp])]
    exact scrapeInstance_unsupported gm inst rest
      (fun q hq => h q (List.mem_cons_of_mem p hq)) acc

lemma scrapeInstance_append (gm : List CroGaugeMetric) (inst : ResourceInstance) :
    ∀ (provs : List MetricsProvider) (acc : List GenericCloudMetric),
    scrapeInstance gm provs inst acc = acc ++ scrapeInstance gm provs inst []
  | [], acc => by simp [scrapeInstance]
  | p :: rest, acc => by
    rw [scrapeInstance_cons, scrapeInstance_cons]
    by_cases hp : p.supportsStrategy inst.strategy
    · rcases hsc : p.scrape inst (metricTypesFor gm inst.strategy) with e | out
      · rw [if_pos hp, if_pos hp]
        exact scrapeInstance_append gm inst rest acc
      · rw [if_pos hp, if_pos hp]
        show scrapeInstance gm rest inst (acc ++ out) =
          acc ++ scrapeInstance gm rest inst ([] ++ out)
        rw [scrapeInstance_append gm inst rest (acc ++ out),
          scrapeInstance_append gm inst rest ([] ++ out)]
        simp
    · rw [if_neg hp, if_neg hp]
      exact scrapeInstance_append gm inst rest acc

lemma scrapeKind_append (gm : List CroGaugeMetric) (provs : List MetricsProvider) :
    ∀ (insts : List ResourceInstance) (acc : List GenericCloudMetric),
    scrapeKind gm provs insts acc = acc ++ scrapeKind gm provs insts []
  | [], acc => by simp [scrapeKind]
  | inst :: rest, acc => by
    rw [scrapeKind_cons, scrapeKind_cons,
      scrapeKind_append gm provs rest (scrapeInstance gm provs inst acc),
      scrapeKind_append gm provs rest (scrapeInstance gm provs inst []),
      scrapeInstance_append gm inst provs acc]
    simp

lemma setGaugeMetrics_append (gm : List CroGaugeMetric)
    (xs ys : List GenericCloudMetric) (st : GaugeState) :
    setGaugeMetrics gm (xs ++ ys) st = setGaugeMetrics gm ys (setGaugeMetrics gm xs st) := by
  simp [setGaugeMetrics, List.foldl_append]

lemma Reconcile_ok (interval : Nat) (redisItems : List ResourceInstance)
    (postgresList : Except String (List ResourceInstance))
    (rp pp : List MetricsProvider) (st : GaugeState) :
    Reconcile interval (.ok redisItems) postgresList rp pp st =
      (({ requeueAfter := interval }, none),
       setGaugeMetrics postgresGaugeMetrics
         (scrapeKind postgresGaugeMetrics pp
           (match postgresList with | .ok items => items | .error _ => [])
           (scrapeKind redisGaugeMetrics rp redisItems []))
         (setGaugeMetrics redisGaugeMetrics
           (scrapeKind redisGaugeMetrics rp redisItems []) st)) := rfl

lemma countCalls_unsupported (inst : ResourceInstance) :
    ∀ (provs : List MetricsProvider),
    (∀ p ∈ provs, p.supportsStrategy inst.strategy = false) →
    ∀ n, provs.foldl (fun n p =>
      if p.supportsStrategy inst.strategy then n + 1 else n) n = n
  | [], _, _ => rfl
  | p :: rest, h, n => by
    have hp := h p (List.mem_cons_self p rest)
    simp only [List.foldl_cons, hp, Bool.false_eq_true, if_false]
    exact countCalls_unsupported inst rest
      (fun q hq => h q (List.mem_cons_of_mem p hq)) n

lemma metricTypesFor_inner (s : String) :
    ∀ (pt : List (String × CloudProviderMetricType))
      (acc : List CloudProviderMetricType),
    pt.foldl (fun acc pr => if pr.1 = s then acc ++ [pr.2] else acc) acc =
      acc ++ pt.filterMap (fun pr => if pr.1 = s then some pr.2 else none)
  | [], acc => by simp
  | pr :: rest, acc => by
    by_cases hp : pr.1 = s
    · simp only [List.foldl_cons, List.filterMap_cons, hp, if_pos]
      rw [metricTypesFor_inner s rest (acc ++ [pr.2])]
      simp
    · simp only [List.foldl_cons, List.filterMap_cons, hp, if_neg, ite_false]
      rw [metricTypesFor_inner s rest acc]

lemma metricTypesFor_outer_append (s : String) :
    ∀ (gm : List CroGaugeMetric) (acc : List CloudProviderMetricType),
    gm.foldl (fun acc gaugeMetric =>
      gaugeMetric.providerType.foldl (fun acc pr =>
        if pr.1 = s then acc ++ [pr.2] else acc) acc) acc =
      acc ++ metricTypesFor gm s
  | [], acc => by simp [metricTypesFor]
  | cro :: rest, acc => by
    simp only [List.foldl_cons, metricTypesFor]
    rw [metricTypesFor_outer_append s rest
        (cro.providerType.foldl (fun acc pr =>
          if pr.1 = s then acc ++ [pr.2] else acc) acc),
      metricTypesFor_outer_append s rest
        (cro.providerType.foldl (fun acc pr =>
          if pr.1 = s then acc ++ [pr.2] else acc) []),
      metricTypesFor_inner s cro.providerType acc,
      metricTypesFor_inner s cro.providerType []]
    simp

lemma metricTypesFor_cons (s : String) (cro : CroGaugeMetric)
    (rest : List CroGaugeMetric) :
    metricTypesFor (cro :: rest) s =
      cro.providerType.filterMap
        (fun pr => if pr.1 = s then some pr.2 else none) ++ metricTypesFor rest s := by
  show (cro :: rest).foldl _ [] = _
  rw [List.foldl_cons, metricTypesFor_outer_append s rest
      (cro.providerType.foldl (fun acc pr =>
        if pr.1 = s then acc ++ [pr.2] else acc) []),
    metricTypesFor_inner s cro.providerType []]
  simp

lemma mem_metricTypesFor (s : String) (mt : CloudProviderMetricType) :
    ∀ gm : List CroGaugeMetric,
    mt ∈ metricTypesFor gm s ↔ ∃ cro ∈ gm, (s, mt) ∈ cro.providerType
  | [] => by simp [metricTypesFor]
  | cro :: rest => by
    rw [metricTypesFor_cons, List.mem_append, mem_metricTypesFor s mt rest]
    constructor
    · rintro (hin | ⟨c, hc, hpt⟩)
      · rcases List.mem_filterMap.mp hin with ⟨pr, hpr, hEq⟩
        by_cases hp : pr.1 = s
        · rw [if_pos hp] at hEq
          refine ⟨cro, List.mem_cons_self cro rest, ?_⟩
          have : pr = (s, mt) := by
            rcases pr with ⟨a, b⟩
            simp only at hp
            rw [hp]
            simpa using Option.some.inj hEq
          exact this ▸ hpr
        · rw [if_neg hp] at hEq
          exact absurd hEq (Option.noConfusion)
      · exact ⟨c, List.mem_cons_of_mem cro hc, hpt⟩
    · rintro ⟨c, hc, hpt⟩
      rcases List.mem_cons.mp hc with rfl | hc2
      · exact Or.inl (List.mem_filterMap.mpr ⟨(s, mt), hpt, by simp⟩)
      · exact Or.inr ⟨c, hc2, hpt⟩

/-! ### Claim theorems -/

/-- C1 counterexample: when the redis listing call fails, Reconcile does
not return the requeue directive with the configured interval; it returns
the zero result (requeueAfter 0) together with the listing error, even
with a postgres instance and provider ready to be scraped. -/
theorem C1_counterexample :
    Reconcile 600 (.error "redis list failed") (.ok [postgresInstanceA])
        [] [scenarioPostgresProvider] [] =
      (({ requeueAfter := 0 }, some "redis list failed"), []) ∧
    ({ requeueAfter := 0 } : ReconcileResult) ≠ { requeueAfter := 600 } := by
  exact ⟨rfl, by decide⟩

/-- C1 (amended): Reconcile returns exactly one requeue directive carrying
the configured interval, and a nil error, whenever the redis listing call
succeeds — regardless of postgres listing errors and of how many scrape or
publish steps failed; when the redis listing call fails, it instead
returns the zero result together with the error. -/
theorem C1_amended_requeue (interval : Nat) (redisItems : List ResourceInstance)
    (postgresList : Except String (List ResourceInstance))
    (rp pp : List MetricsProvider) (st : GaugeState) :
    (Reconcile interval (.ok redisItems) postgresList rp pp st).1 =
      ({ requeueAfter := interval }, none) ∧
    ∀ e, Reconcile interval (.error e) postgresList rp pp st =
      (({ requeueAfter := 0 }, some e), st) :=
  ⟨rfl, fun _ => rfl⟩

/-- C2 counterexample: a redis listing failure terminates the whole pass,
not only the redis portion: the pass returns the error with no requeue
directive and the postgres portion never runs — although the same pass
with an empty redis list would have mutated a postgres gauge. -/
theorem C2_counterexample :
    Reconcile 600 (.error "redis list failed") (.ok [postgresInstanceA])
        [] [scenarioPostgresProvider] [] =
      (({ requeueAfter := 0 }, some "redis list failed"), []) ∧
    (Reconcile 600 (.ok []) (.ok [postgresInstanceA])
        [] [scenarioPostgresProvider] []).2 ≠ [] := by
  exact ⟨rfl, by decide⟩

/-- C2 (amended): a postgres listing failure aborts only the postgres
portion of the pass — the instance set is treated as empty and the pass
still ends in the requeue directive — but a redis listing failure
terminates the pass at once, returning the error with the zero result. -/
theorem C2_amended_listing_failure_scope (interval : Nat)
    (redisItems : List ResourceInstance) (e e2 : String)
    (postgresList : Except String (List ResourceInstance))
    (rp pp : List MetricsProvider) (st : GaugeState) :
    Reconcile interval (.ok redisItems) (.error e2) rp pp st =
      Reconcile interval (.ok redisItems) (.ok []) rp pp st ∧
    Reconcile interval (.error e) postgresList rp pp st =
      (({ requeueAfter := 0 }, some e), st) :=
  ⟨rfl, rfl⟩

/-- C3: a provider scrape failure for one instance contributes zero
samples and the loop continues: with a provider failing on instance I and
succeeding on instance J, the pass scrapes exactly J's samples, behaves
identically to a pass that never saw I, and still ends with the single
requeue directive. -/
theorem C3_scrape_failure_isolated
    (p : MetricsProvider) (I J : ResourceInstance) (e : String)
    (ms : List GenericCloudMetric) (interval : Nat)
    (postgresList : Except String (List ResourceInstance))
    (pp : List MetricsProvider) (st : GaugeState)
    (hIs : p.supportsStrategy I.strategy = true)
    (hIe : p.scrape I (metricTypesFor redisGaugeMetrics I.strategy) = .error e)
    (hJs : p.supportsStrategy J.strategy = true)
    (hJok : p.scrape J (metricTypesFor redisGaugeMetrics J.strategy) = .ok ms) :
    scrapeKind redisGaugeMetrics [p] [I, J] [] = ms ∧
    Reconcile interval (.ok [I, J]) postgresList [p] pp st =
      Reconcile interval (.ok [J]) postgresList [p] pp st ∧
    (Reconcile interval (.ok [I, J]) postgresList [p] pp st).1 =
      ({ requeueAfter := interval }, none) := by
  have hI : ∀ acc, scrapeInstance redisGaugeMetrics [p] I acc = acc := by
    intro acc
    rw [scrapeInstance_cons, if_pos hIs, hIe]
    exact rfl
  have hJ : ∀ acc, scrapeInstance redisGaugeMetrics [p] J acc = acc ++ ms := by
    intro acc
    rw [scrapeInstance_cons, if_pos hJs, hJok]
    exact rfl
  have hK : scrapeKind redisGaugeMetrics [p] [I, J] [] =
      scrapeKind redisGaugeMetrics [p] [J] [] := by
    rw [scrapeKind_cons, hI]
  refine ⟨?_, ?_, ?_⟩
  · rw [hK, scrapeKind_cons, hJ]
    rfl
  · rw [Reconcile_ok, Reconcile_ok, hK]
  · rw [Reconcile_ok]

/-- Witness for C3: a provider that fails for redis-a and succeeds with
one sample for redis-b, in one concrete pass. -/
theorem C3_witness :
    scrapeKind redisGaugeMetrics [failingOnAProvider]
        [redisInstanceA, redisInstanceB] [] = [redisMemorySample] ∧
    Reconcile 600 (.ok [redisInstanceA, redisInstanceB]) (.ok [])
        [failingOnAProvider] [] [] =
      Reconcile 600 (.ok [redisInstanceB]) (.ok []) [failingOnAProvider] [] [] ∧
    (Reconcile 600 (.ok [redisInstanceA, redisInstanceB]) (.ok [])
        [failingOnAProvider] [] []).1 = ({ requeueAfter := 600 }, none) :=
  C3_scrape_failure_isolated failingOnAProvider redisInstanceA redisInstanceB
    "cloudwatch unavailable" [redisMemorySample] 600 (.ok []) [] []
    (by decide) (by exact rfl) (by decide) (by exact rfl)

/-- C4: for an instance whose declared strategy no registered provider
supports, zero scrape calls are attempted, the instance contributes zero
samples, a pass containing the instance behaves identically to one
without it (for either resource kind), and the pass still completes with
the requeue directive. -/
theorem C4_unsupported_strategy_skipped
    (inst : ResourceInstance) (provs : List MetricsProvider)
    (gm : List CroGaugeMetric) (acc : List GenericCloudMetric)
    (interval : Nat) (rest prest : List ResourceInstance)
    (otherList : Except String (List ResourceInstance))
    (others : List MetricsProvider) (st : GaugeState)
    (h : ∀ p ∈ provs, p.supportsStrategy inst.strategy = false) :
    scrapeCallCount provs [inst] = 0 ∧
    scrapeInstance gm provs inst acc = acc ∧
    Reconcile interval (.ok (inst :: rest)) otherList provs others st =
      Reconcile interval (.ok rest) otherList provs others st ∧
    Reconcile interval otherList (.ok (inst :: prest)) others provs st =
      Reconcile interval otherList (.ok prest) others provs st ∧
    (Reconcile interval (.ok (inst :: rest)) otherList provs others st).1 =
      ({ requeueAfter := interval }, none) := by
  refine ⟨?_, ?_, ?_, ?_, ?_⟩
  · exact countCalls_unsupported inst provs h 0
  · exact scrapeInstance_unsupported gm inst provs h acc
  · rw [Reconcile_ok, Reconcile_ok, scrapeKind_cons,
      scrapeInstance_unsupported redisGaugeMetrics inst provs h []]
  · rcases otherList with e | items
    · rfl
    · rw [Reconcile_ok, Reconcile_ok]
      show (_, setGaugeMetrics _ (scrapeKind _ provs (inst :: prest) _) _) = _
      rw [scrapeKind_cons, scrapeInstance_unsupported postgresGaugeMetrics inst provs h _]
  · rw [Reconcile_ok]

/-- Witness for C4: a gcp-strategy instance against the aws-only provider
list, for both kinds of passes. -/
theorem C4_witness :
    scrapeCallCount [scenarioPostgresProvider] [gcpInstance] = 0 ∧
    scrapeInstance postgresGaugeMetrics [scenarioPostgresProvider] gcpInstance [] = [] ∧
    Reconcile 600 (.ok [gcpInstance]) (.ok []) [scenarioPostgresProvider] [] [] =
      Reconcile 600 (.ok []) (.ok []) [scenarioPostgresProvider] [] [] ∧
    Reconcile 600 (.ok []) (.ok [gcpInstance]) [] [scenarioPostgresProvider] [] =
      Reconcile 600 (.ok []) (.ok []) [] [scenarioPostgresProvider] [] ∧
    (Reconcile 600 (.ok [gcpInstance]) (.ok []) [scenarioPostgresProvider] [] []).1 =
      ({ requeueAfter := 600 }, none) :=
  C4_unsupported_strategy_skipped gcpInstance [scenarioPostgresProvider]
    postgresGaugeMetrics [] 600 [] [] (.ok []) [] [] (by decide)

/-- C5: a sample whose catalogMetricName matches no entry of the catalog
passed to publish leaves all gauge state unchanged, with no error — the
sample is silently dropped. -/
theorem C5_unmatched_sample_dropped (gaugeMetrics : List CroGaugeMetric)
    (m : GenericCloudMetric) (st : GaugeState)
    (h : ∀ cro ∈ gaugeMetrics, m.name ≠ cro.name) :
    setGaugeMetrics gaugeMetrics [m] st = st :=
  setGaugeMetricsOne_unmatched gaugeMetrics m st h

/-- Witness for C5: a stray sample against the redis catalog and a
nonempty gauge state. -/
theorem C5_witness :
    setGaugeMetrics redisGaugeMetrics [strayMetricSample]
      [((0, []), 1)] = [((0, []), 1)] :=
  C5_unmatched_sample_dropped redisGaugeMetrics strayMetricSample
    [((0, []), 1)] (by decide)

/-- C6: publishing is idempotent — publishing the same sample twice in two
consecutive identical calls yields exactly the gauge state of publishing
it once, for every catalog, sample and starting state. -/
theorem C6_publish_idempotent (gaugeMetrics : List CroGaugeMetric)
    (m : GenericCloudMetric) (st : GaugeState) :
    setGaugeMetrics gaugeMetrics [m] (setGaugeMetrics gaugeMetrics [m] st) =
      setGaugeMetrics gaugeMetrics [m] st := by
  show setGaugeMetricsOne gaugeMetrics m (setGaugeMetricsOne gaugeMetrics m st) =
    setGaugeMetricsOne gaugeMetrics m st
  simp only [setGaugeMetricsOne_eq_foldSet]
  exact foldSet_noop _ _ _ (fun k hk => lookupSeries_foldSet_mem _ _ _ _ hk)

/-- C7 counterexample: with a catalog holding two entries named dup_metric
(gauge vectors 10 and 11), publishing one dup_metric sample sets the
series of the second entry as well — not only that of the first matching
entry, whose gauge vector is 10. -/
theorem C7_counterexample :
    lookupSeries (setGaugeMetrics duplicateNameCatalog [dupSample] [])
      (11, labelValues dupSample.labels) = some 5 ∧
    lookupSeries ([] : GaugeState) (11, labelValues dupSample.labels) = none ∧
    duplicateNameCatalog.head?.map CroGaugeMetric.gaugeVec = some 10 := by
  decide

/-- C7 (amended): publish performs a linear search of the catalog for
entries whose name equals the sample's catalogMetricName and sets the
gauge series — identified by the 6-tuple of label values — of EVERY
matching entry (not only the first) to the sample's value, overwriting any
prior value; series belonging to no matching entry are untouched. When
catalog names are unique, this coincides with the single matching
entry. -/
theorem C7_amended_publish_sets_all_matches (gaugeMetrics : List CroGaugeMetric)
    (m : GenericCloudMetric) (st : GaugeState) :
    (∀ cro ∈ gaugeMetrics, m.name = cro.name →
      lookupSeries (setGaugeMetrics gaugeMetrics [m] st)
        (cro.gaugeVec, labelValues m.labels) = some m.value) ∧
    (∀ k : SeriesKey,
      (∀ cro ∈ gaugeMetrics,
        ¬(m.name = cro.name ∧ k = (cro.gaugeVec, labelValues m.labels))) →
      lookupSeries (setGaugeMetrics gaugeMetrics [m] st) k = lookupSeries st k) := by
  have hpub : setGaugeMetrics gaugeMetrics [m] st =
      foldSet st (matchKeys gaugeMetrics m) m.value :=
    setGaugeMetricsOne_eq_foldSet gaugeMetrics m st
  constructor
  · intro cro hcro hname
    rw [hpub]
    exact lookupSeries_foldSet_mem _ _ _ _
      (List.mem_filterMap.mpr ⟨cro, hcro, by simp [hname]⟩)
  · intro k hk
    rw [hpub]
    refine lookupSeries_foldSet_not_mem _ _ _ _ ?_
    intro hmem
    rcases List.mem_filterMap.mp hmem with ⟨cro, hcro, hEq⟩
    by_cases hname : m.name = cro.name
    · rw [if_pos hname] at hEq
      exact hk cro hcro ⟨hname, (Option.some.inj hEq).symm⟩
    · rw [if_neg hname] at hEq
      exact Option.noConfusion hEq

/-- Witness for C7 (amended): publishing the scenario sample against the
postgres catalog sets the matching entry's series and leaves a foreign
series untouched. -/
theorem C7_amended_witness :
    lookupSeries (setGaugeMetrics postgresGaugeMetrics [freeStorageSample] [])
      (0, labelValues freeStorageSample.labels) = some 4096 ∧
    lookupSeries (setGaugeMetrics postgresGaugeMetrics [freeStorageSample] [])
      (42, labelValues freeStorageSample.labels) = none := by
  constructor
  · exact (C7_amended_publish_sets_all_matches postgresGaugeMetrics
      freeStorageSample []).1
      { name := PostgresFreeStorageAverage, gaugeVec := 0,
        providerType := [(AWSDeploymentStrategy,
          { promethuesMetricName := PostgresFreeStorageAverage,
            providerMetricName := "FreeStorageSpace",
            statistic := StatisticAverage })] }
      (by decide) (by decide)
  · exact (C7_amended_publish_sets_all_matches postgresGaugeMetrics
      freeStorageSample []).2 (42, labelValues freeStorageSample.labels)
      (by decide)

/-- C8: the descriptor list handed to a scrape call is exactly the set of
per-strategy metric types of catalog entries whose ProviderType mapping
contains the instance's declared strategy; no descriptor ever comes from a
strategy the instance did not declare, and a strategy present in no
entry's mapping yields the empty descriptor list. -/
theorem C8_descriptor_list_exact (gaugeMetrics : List CroGaugeMetric)
    (strategy : String) :
    (∀ mt : CloudProviderMetricType,
      mt ∈ metricTypesFor gaugeMetrics strategy ↔
        ∃ cro ∈ gaugeMetrics, (strategy, mt) ∈ cro.providerType) ∧
    ((∀ cro ∈ gaugeMetrics, ∀ pr ∈ cro.providerType, pr.1 ≠ strategy) →
      metricTypesFor gaugeMetrics strategy = []) := by
  refine ⟨fun mt => mem_metricTypesFor strategy mt gaugeMetrics, fun h => ?_⟩
  rw [List.eq_nil_iff_forall_not_mem]
  intro mt hmt
  rcases (mem_metricTypesFor strategy mt gaugeMetrics).mp hmt with ⟨cro, hcro, hpt⟩
  exact h cro hcro (strategy, mt) hpt rfl

/-- Witness for C8: the strategy gcp occurs in no catalog entry and
produces the empty descriptor list, while aws produces exactly the three
postgres descriptors. -/
theorem C8_witness :
    metricTypesFor postgresGaugeMetrics "gcp" = [] ∧
    ({ promethuesMetricName := PostgresFreeStorageAverage,
       providerMetricName := "FreeStorageSpace",
       statistic := StatisticAverage } : CloudProviderMetricType) ∈
      metricTypesFor postgresGaugeMetrics "aws" :=
  ⟨(C8_descriptor_list_exact postgresGaugeMetrics "gcp").2 (by decide),
   ((C8_descriptor_list_exact postgresGaugeMetrics "aws").1 _).mpr (by decide)⟩

/-- C9: end-to-end — with the postgres catalog's free_storage_avg entry
(provider query FreeStorageSpace / Average for strategy aws), one postgres
instance of strategy aws, and a provider whose scrape returns the single
sample free_storage_avg = 4096 carrying labels clusterID c1, resourceID
r1, namespace ns1, instanceID i1, productName p1 and strategy aws, the
pass leaves the gauge series of exactly that label 6-tuple at 4096. -/
theorem C9_end_to_end_free_storage :
    lookupSeries
      (Reconcile 600 (.ok []) (.ok [postgresInstanceA])
        [] [scenarioPostgresProvider] []).2
      (0, ["c1", "r1", "ns1", "i1", "p1", "aws"]) = some 4096 := by
  decide

/-- C10: samples accumulate in one flat list across both kinds, so the
postgres publish receives every redis sample scraped earlier in the pass;
since no postgres catalog entry shares a name with any redis catalog
entry, redis-named carried-over samples mutate no postgres gauge, and the
final state equals publishing only the postgres samples against the
postgres catalog (on top of the redis publish). -/
theorem C10_flat_accumulation_frame
    (interval : Nat) (rItems pItems : List ResourceInstance)
    (rp pp : List MetricsProvider) (st : GaugeState)
    (h : ∀ m ∈ scrapeKind redisGaugeMetrics rp rItems [],
      ∃ cro ∈ redisGaugeMetrics, m.name = cro.name) :
    (∀ cp ∈ postgresGaugeMetrics, ∀ cr ∈ redisGaugeMetrics, cp.name ≠ cr.name) ∧
    scrapeKind postgresGaugeMetrics pp pItems
        (scrapeKind redisGaugeMetrics rp rItems []) =
      scrapeKind redisGaugeMetrics rp rItems [] ++
        scrapeKind postgresGaugeMetrics pp pItems [] ∧
    (Reconcile interval (.ok rItems) (.ok pItems) rp pp st).2 =
      setGaugeMetrics postgresGaugeMetrics
        (scrapeKind postgresGaugeMetrics pp pItems [])
        (setGaugeMetrics redisGaugeMetrics
          (scrapeKind redisGaugeMetrics rp rItems []) st) := by
  have hdisj : ∀ cp ∈ postgresGaugeMetrics, ∀ cr ∈ redisGaugeMetrics,
      cp.name ≠ cr.name := by decide
  have hunmatched : ∀ m ∈ scrapeKind redisGaugeMetrics rp rItems [],
      ∀ cro ∈ postgresGaugeMetrics, m.name ≠ cro.name := by
    intro m hm cro hcro heq
    rcases h m hm with ⟨cr, hcr, hname⟩
    exact hdisj cro hcro cr hcr (heq ▸ hname)
  refine ⟨hdisj, scrapeKind_append postgresGaugeMetrics pp pItems _, ?_⟩
  rw [Reconcile_ok]
  show setGaugeMetrics postgresGaugeMetrics
      (scrapeKind postgresGaugeMetrics pp pItems
        (scrapeKind redisGaugeMetrics rp rItems [])) _ = _
  rw [scrapeKind_append postgresGaugeMetrics pp pItems
      (scrapeKind redisGaugeMetrics rp rItems []),
    setGaugeMetrics_append,
    setGaugeMetrics_unmatched postgresGaugeMetrics
      (scrapeKind redisGaugeMetrics rp rItems []) _ hunmatched]

/-- Witness for C10: a concrete pass with one redis instance producing a
redis-named sample and one postgres instance producing the free-storage
sample. -/
theorem C10_witness :
    (∀ cp ∈ postgresGaugeMetrics, ∀ cr ∈ redisGaugeMetrics, cp.name ≠ cr.name) ∧
    scrapeKind postgresGaugeMetrics [scenarioPostgresProvider] [postgresInstanceA]
        (scrapeKind redisGaugeMetrics [scenarioRedisProvider] [redisInstanceB] []) =
      scrapeKind redisGaugeMetrics [scenarioRedisProvider] [redisInstanceB] [] ++
        scrapeKind postgresGaugeMetrics [scenarioPostgresProvider] [postgresInstanceA] [] ∧
    (Reconcile 600 (.ok [redisInstanceB]) (.ok [postgresInstanceA])
        [scenarioRedisProvider] [scenarioPostgresProvider] []).2 =
      setGaugeMetrics postgresGaugeMetrics
        (scrapeKind postgresGaugeMetrics [scenarioPostgresProvider] [postgresInstanceA] [])
        (setGaugeMetrics redisGaugeMetrics
          (scrapeKind redisGaugeMetrics [scenarioRedisProvider] [redisInstanceB] []) []) :=
  C10_flat_accumulation_frame 600 [redisInstanceB] [postgresInstanceA]
    [scenarioRedisProvider] [scenarioPostgresProvider] [] (by decide)
